import Mathlib

/-!
Verification development for the Adaptive Cache & Prefetch Engine of the
tv-music-app repository.

Part A embeds the service worker (source file: the Service Worker script,
constants CACHE_STRATEGIES, CACHE_LIMITS, CACHE_EXPIRATION and functions
getStrategyForRequest, getCacheForRequest, cacheFirst, networkFirst,
staleWhileRevalidate, trimCache, getFallbackResponse).

Part B embeds the media worker (source file: the Media Worker script,
state, preloadTrack, processQueue, fetchAndCache, cancelPreload,
clearCache, setNetworkInfo, notifyPreloadComplete, notifyPreloadFailed).

JavaScript maps and caches are modelled as association lists kept in
insertion order; JavaScript numbers that can go below zero are modelled
as Int, the rest as Nat.  The worker runs on a single event loop, so its
behaviour is a sequence of synchronous steps separated by suspension
points; each synchronous step is one Lean function on the worker state.
-/

/-- Model of the JavaScript substring test on lists of characters:
jsIncludesList pat s is true when pat occurs contiguously in s. -/
def jsIncludesList (pat : List Char) : List Char → Bool
  | [] => pat.isEmpty
  | c :: t => pat.isPrefixOf (c :: t) || jsIncludesList pat t

/-- Model of the JavaScript String.prototype.includes used by the
service worker on url.pathname. -/
def jsIncludes (s pat : String) : Bool :=
  jsIncludesList pat.data s.data

/-- A GET resource request as the service worker observes it:
url.pathname, request.destination and request.mode. -/
structure ReqInfo where
  pathname : String
  destination : String
  mode : String
deriving Repr, DecidableEq

/-- Source constant CACHE_VERSION. -/
def CACHE_VERSION : String := "v1.0.0"

/-- Source constant CACHE_PREFIX. -/
def CACHE_PREFIX : String := "tv-music-app"

/-- The five partition names of the source constant CACHES. -/
structure CacheNames where
  STATIC : String
  DYNAMIC : String
  MEDIA : String
  IMAGES : String
  API : String
deriving Repr, DecidableEq

/-- Source constant CACHES: partition names built from prefix and version. -/
def CACHES : CacheNames :=
  { STATIC := CACHE_PREFIX ++ "-static-" ++ CACHE_VERSION
    DYNAMIC := CACHE_PREFIX ++ "-dynamic-" ++ CACHE_VERSION
    MEDIA := CACHE_PREFIX ++ "-media-" ++ CACHE_VERSION
    IMAGES := CACHE_PREFIX ++ "-images-" ++ CACHE_VERSION
    API := CACHE_PREFIX ++ "-api-" ++ CACHE_VERSION }

/-- Source constant STATIC_RESOURCES: the precache manifest. -/
def STATIC_RESOURCES : List String :=
  ["/", "/index.html", "/manifest.json", "/css/tv-layout.css",
   "/css/animations.css", "/css/themes/dark.css", "/css/themes/light.css",
   "/js/app.js", "/js/player.js", "/js/navigation.js", "/js/cache.js",
   "/js/modules/lazy-loader.js", "/js/modules/virtual-scroll.js",
   "/js/modules/prefetch.js", "/fonts/main.woff2", "/images/logo.png",
   "/images/placeholder.jpg", "/sounds/navigate.mp3", "/sounds/select.mp3",
   "/offline.html"]

/-- Source constant CACHE_STRATEGIES: the ordered rule table, in the
insertion order Object.entries iterates it. -/
def CACHE_STRATEGIES : List (String × String) :=
  [("/api/", "networkFirst"),
   ("/stream/", "cacheFirst"),
   ("/images/", "cacheFirst"),
   ("/static/", "cacheFirst"),
   ("/", "staleWhileRevalidate")]

/-- Source constant CACHE_LIMITS: per-partition item ceilings. -/
structure CacheLimits where
  DYNAMIC : Nat
  MEDIA : Nat
  IMAGES : Nat
  API : Nat
deriving Repr, DecidableEq

/-- Source constant CACHE_LIMITS. -/
def CACHE_LIMITS : CacheLimits :=
  { DYNAMIC := 50, MEDIA := 100, IMAGES := 200, API := 30 }

/-- Source constant CACHE_EXPIRATION: per-partition time-to-live in
seconds. -/
structure CacheExpiration where
  STATIC : Nat
  DYNAMIC : Nat
  MEDIA : Nat
  IMAGES : Nat
  API : Nat
deriving Repr, DecidableEq

/-- Source constant CACHE_EXPIRATION. -/
def CACHE_EXPIRATION : CacheExpiration :=
  { STATIC := 30 * 24 * 60 * 60
    DYNAMIC := 7 * 24 * 60 * 60
    MEDIA := 14 * 24 * 60 * 60
    IMAGES := 30 * 24 * 60 * 60
    API := 5 * 60 }

/-- Source function getStrategyForRequest: first iterate the
CACHE_STRATEGIES entries in order testing url.pathname.includes(pattern),
then fall back to destination-based defaults, then to networkFirst. -/
def getStrategyForRequest (req : ReqInfo) : String :=
  match CACHE_STRATEGIES.find? (fun e => jsIncludes req.pathname e.1) with
  | some e => e.2
  | none =>
    if req.destination = "image" then "cacheFirst"
    else if req.destination = "script" ∨ req.destination = "style" then
      "staleWhileRevalidate"
    else if jsIncludes req.pathname "/api/" then "networkFirst"
    else "networkFirst"

/-- Source function getCacheForRequest: which partition a request is
stored in. -/
def getCacheForRequest (req : ReqInfo) : String :=
  if jsIncludes req.pathname "/api/" then CACHES.API
  else if jsIncludes req.pathname "/stream/" ∨ req.destination = "audio"
      ∨ req.destination = "video" then CACHES.MEDIA
  else if req.destination = "image" then CACHES.IMAGES
  else if STATIC_RESOURCES.contains req.pathname then CACHES.STATIC
  else CACHES.DYNAMIC

/-- One entry of a partition: the request it is keyed by and the time it
was stored.  The list holding the entries is kept in insertion order,
oldest first, matching cache.keys(). -/
structure StoredEntry where
  req : ReqInfo
  storedAt : Nat
deriving Repr, DecidableEq

/-- Model of cache.put / Cache API put: any entry for the same URL is
replaced, the written entry becomes the newest. -/
def cachePut (store : List StoredEntry) (req : ReqInfo) (now : Nat) :
    List StoredEntry :=
  (store.filter (fun e => e.req.pathname != req.pathname)) ++ [⟨req, now⟩]

/-- Model of caches.match: find the entry for the URL.  The source
performs no age or TTL comparison here. -/
def cacheMatch (store : List StoredEntry) (req : ReqInfo) :
    Option StoredEntry :=
  store.find? (fun e => e.req.pathname == req.pathname)

/-- The item ceiling the source function trimCache selects for a
request. -/
def trimLimitFor (req : ReqInfo) : Nat :=
  if jsIncludes req.pathname "/api/" then CACHE_LIMITS.API
  else if req.destination = "image" then CACHE_LIMITS.IMAGES
  else if req.destination = "audio" ∨ req.destination = "video" then
    CACHE_LIMITS.MEDIA
  else CACHE_LIMITS.DYNAMIC

/-- Source function trimCache: when the key count exceeds the selected
ceiling, delete the keys at the front of cache.keys(), i.e. the oldest
entries, until exactly the ceiling remains. -/
def trimCache (req : ReqInfo) (store : List StoredEntry) :
    List StoredEntry :=
  let maxItems := trimLimitFor req
  if store.length > maxItems then
    store.drop (store.length - maxItems)
  else store

/-- The effect of a successful cacheFirst network fetch on the partition:
the source calls cache.put and nothing else, there is no trim call in
cacheFirst. -/
def cacheFirstWrite (store : List StoredEntry) (req : ReqInfo) (now : Nat) :
    List StoredEntry :=
  cachePut store req now

/-- The effect of a successful staleWhileRevalidate background fetch on
the partition: the source calls cache.put and nothing else. -/
def staleWhileRevalidateWrite (store : List StoredEntry) (req : ReqInfo)
    (now : Nat) : List StoredEntry :=
  cachePut store req now

/-- The effect of a successful networkFirst fetch on the partition: the
source calls cache.put and then awaits trimCache. -/
def networkFirstWrite (store : List StoredEntry) (req : ReqInfo)
    (now : Nat) : List StoredEntry :=
  trimCache req (cachePut store req now)

/-- The response a strategy hands back, abstracted to its provenance. -/
inductive SWResponse where
  | fromCache (e : StoredEntry)
  | fromNetwork
  | offlinePage
  | placeholderImage
  | apiUnavailable
  | genericOffline
deriving Repr, DecidableEq

/-- Source function getFallbackResponse. -/
def getFallbackResponse (req : ReqInfo) : SWResponse :=
  if req.mode = "navigate" then .offlinePage
  else if req.destination = "image" then .placeholderImage
  else if jsIncludes req.pathname "/api/" then .apiUnavailable
  else .genericOffline

/-- Source function cacheFirst, viewed as its returned response:
caches.match first, returned as is when present (no age check; a
background refresh may also be started); on a miss the network result,
or the fallback when the network fails. -/
def cacheFirstRespond (store : List StoredEntry) (req : ReqInfo)
    (networkOk : Bool) : SWResponse :=
  match cacheMatch store req with
  | some e => .fromCache e
  | none => if networkOk then .fromNetwork else getFallbackResponse req

/-!
Part B: the media worker.
-/

/-- A queue item as preloadTrack builds it: { id, url, priority,
attempts }. -/
structure QItem where
  id : String
  url : String
  priority : String
  attempts : Nat
deriving Repr, DecidableEq

/-- A dispatched preload whose fetch has not yet settled: the token is
the identity of the AbortController created at dispatch, item is the
local variable of the suspended processQueue call, aborted records
whether controller.abort() has been called. -/
structure Pending where
  token : Nat
  item : QItem
  aborted : Bool
deriving Repr, DecidableEq

/-- A retry scheduled by the setTimeout in the catch branch of
processQueue: the requeued item (attempts already incremented) and the
delay it was scheduled with. -/
structure DelayedRetry where
  item : QItem
  delay : Nat
deriving Repr, DecidableEq

/-- A message the worker posts about a preload: PRELOAD_COMPLETE or
PRELOAD_FAILED. -/
inductive WNotice where
  | completed (trackId : String)
  | failed (trackId : String)
deriving Repr, DecidableEq

/-- The worker state: the fields of the source state object, plus the
bookkeeping the event loop holds implicitly (pending fetches, scheduled
retry timers, posted notices, a counter to mint controller tokens).
mediaCache lists the URLs written into the media-cache Cache. -/
structure WState where
  preloadQueue : List QItem
  preloading : List (String × Nat)
  preloaded : List String
  currentPreloads : Int
  maxConcurrent : Nat
  networkType : String
  cacheSize : Nat
  maxCacheSize : Nat
  quality : String
  mediaCache : List String
  pending : List Pending
  delayed : List DelayedRetry
  notices : List WNotice
  nextToken : Nat
deriving Repr, DecidableEq

/-- The initial worker state (source lines declaring the state
object). -/
def initialWState : WState :=
  { preloadQueue := []
    preloading := []
    preloaded := []
    currentPreloads := 0
    maxConcurrent := 2
    networkType := "unknown"
    cacheSize := 0
    maxCacheSize := 500 * 1024 * 1024
    quality := "auto"
    mediaCache := []
    pending := []
    delayed := []
    notices := []
    nextToken := 0 }

/-- Source constant CONFIG.RETRY_ATTEMPTS. -/
def RETRY_ATTEMPTS : Nat := 3

/-- Source constant CONFIG.RETRY_DELAY in milliseconds. -/
def RETRY_DELAY : Nat := 1000

/-- Model of Map.prototype.set on the preloading map: replace in place
when the key exists, append otherwise. -/
def mapSet (m : List (String × Nat)) (k : String) (v : Nat) :
    List (String × Nat) :=
  if m.any (fun e => e.1 == k) then
    m.map (fun e => if e.1 == k then (k, v) else e)
  else m ++ [(k, v)]

/-- Source function processQueue, its synchronous prefix: return when
the in-flight counter has reached maxConcurrent or the queue is empty;
otherwise shift the head item, increment the counter, record the item in
the preloading map with a fresh AbortController, and suspend awaiting
fetchAndCache (the suspended remainder is registered in pending). -/
def processQueue (s : WState) : WState :=
  if s.currentPreloads ≥ (s.maxConcurrent : Int) then s
  else
    match s.preloadQueue with
    | [] => s
    | item :: rest =>
      { s with
        preloadQueue := rest
        currentPreloads := s.currentPreloads + 1
        preloading := mapSet s.preloading item.id s.nextToken
        pending := s.pending ++ [⟨s.nextToken, item, false⟩]
        nextToken := s.nextToken + 1 }

/-- The object preloadTrack returns. -/
inductive PTResult where
  | fromCache
  | inProgress
  | queued
deriving Repr, DecidableEq

/-- Source function preloadTrack: answer fromCache when the id is in the
preloaded map, inProgress when it is in the preloading map; otherwise
build a fresh item with attempts 0, unshift it when priority is high and
push it otherwise, then run processQueue.  The preload queue itself is
not consulted for deduplication. -/
def preloadTrack (s : WState) (id url priority : String) :
    WState × PTResult :=
  if s.preloaded.contains id then (s, .fromCache)
  else if s.preloading.any (fun e => e.1 == id) then (s, .inProgress)
  else
    let item : QItem := ⟨id, url, priority, 0⟩
    let s1 :=
      if priority = "high" then
        { s with preloadQueue := item :: s.preloadQueue }
      else
        { s with preloadQueue := s.preloadQueue ++ [item] }
    (processQueue s1, .queued)

/-- Source function cancelPreload: filter the id out of the queue; when
the id is in the preloading map, abort its controller, delete it from
the map, decrement the in-flight counter, and run processQueue. -/
def cancelPreload (s : WState) (trackId : String) : WState :=
  let s1 := { s with
    preloadQueue := s.preloadQueue.filter (fun it => it.id != trackId) }
  match s1.preloading.find? (fun e => e.1 == trackId) with
  | some entry =>
    let s2 := { s1 with
      pending := s1.pending.map (fun p =>
        if p.token == entry.2 then { p with aborted := true } else p)
      preloading := s1.preloading.filter (fun e => e.1 != trackId)
      currentPreloads := s1.currentPreloads - 1 }
    processQueue s2
  | none => s1

/-- How the fetch inside fetchAndCache settles when it is not
aborted. -/
inductive FetchOutcome where
  | success (size : Nat)
  | failure
deriving Repr, DecidableEq

/-- The resumption of a suspended processQueue call when the fetch of
the pending task with the given token settles.  When the controller was
aborted, fetchAndCache catches the AbortError and returns null; the try
block of processQueue then throws reading result.size, so control lands
in the catch branch: attempts below RETRY_ATTEMPTS schedules a requeue
via setTimeout with delay RETRY_DELAY times the incremented attempts,
otherwise notifyPreloadFailed posts a failure.  A genuine failure takes
the same catch branch.  A success stores into the preloaded map, writes
the media cache (done inside fetchAndCache before returning) and posts a
completion.  The finally branch always deletes the id from the
preloading map, decrements the in-flight counter and runs
processQueue. -/
def completeFetch (s : WState) (token : Nat) (outcome : FetchOutcome) :
    WState :=
  match s.pending.find? (fun p => p.token == token) with
  | none => s
  | some p =>
    let s1 := { s with pending := s.pending.filter (fun q => q.token != token) }
    let item := p.item
    let s2 : WState :=
      if p.aborted then
        if item.attempts < RETRY_ATTEMPTS then
          { s1 with delayed := s1.delayed ++
              [⟨{ item with attempts := item.attempts + 1 },
                RETRY_DELAY * (item.attempts + 1)⟩] }
        else
          { s1 with notices := s1.notices ++ [.failed item.id] }
      else
        match outcome with
        | .success _ =>
          { s1 with
            preloaded :=
              if s1.preloaded.contains item.id then s1.preloaded
              else s1.preloaded ++ [item.id]
            mediaCache := s1.mediaCache ++ [item.url]
            notices := s1.notices ++ [.completed item.id] }
        | .failure =>
          if item.attempts < RETRY_ATTEMPTS then
            { s1 with delayed := s1.delayed ++
                [⟨{ item with attempts := item.attempts + 1 },
                  RETRY_DELAY * (item.attempts + 1)⟩] }
          else
            { s1 with notices := s1.notices ++ [.failed item.id] }
    let s3 := { s2 with
      preloading := s2.preloading.filter (fun e => e.1 != item.id)
      currentPreloads := s2.currentPreloads - 1 }
    processQueue s3

/-- The firing of the earliest setTimeout scheduled by the catch branch:
push the requeued item onto the back of the queue and run
processQueue. -/
def fireDelayed (s : WState) : WState :=
  match s.delayed with
  | [] => s
  | d :: rest =>
    processQueue { s with
      delayed := rest
      preloadQueue := s.preloadQueue ++ [d.item] }

/-- Source function clearCache: clear the preloaded map, the preloading
map and the queue, and delete the media-cache Cache.  No controller is
aborted and no other field is touched. -/
def clearCache (s : WState) : WState :=
  { s with
    preloaded := []
    preloading := []
    preloadQueue := []
    mediaCache := [] }

/-- The data argument of a SET_NETWORK message: info.type may be absent
(or empty, which the source's falsy test also maps to unknown), and the
saveData flag of the Network Information API may accompany it. -/
structure NetworkInfo where
  type : Option String
  saveData : Bool
deriving Repr, DecidableEq

/-- Model of the expression info.type || "unknown". -/
def jsTypeOrUnknown : Option String → String
  | none => "unknown"
  | some t => if t = "" then "unknown" else t

/-- Source function setNetworkInfo: store the network type and derive
maxConcurrent from it alone: 1 for 2g or slow-2g, 2 for 3g, 3 for
everything else.  The saveData flag is never read. -/
def setNetworkInfo (s : WState) (info : NetworkInfo) : WState :=
  let nt := jsTypeOrUnknown info.type
  let mc : Nat :=
    if nt = "2g" ∨ nt = "slow-2g" then 1
    else if nt = "3g" then 2
    else 3
  { s with networkType := nt, maxConcurrent := mc }

/-!
Helper lemmas.
-/

/-- processQueue never touches the delayed-retry timers. -/
theorem processQueue_delayed_eq (s : WState) :
    (processQueue s).delayed = s.delayed := by
  unfold processQueue
  split
  · rfl
  · split <;> rfl

/-- processQueue never posts a notice. -/
theorem processQueue_notices_eq (s : WState) :
    (processQueue s).notices = s.notices := by
  unfold processQueue
  split
  · rfl
  · split <;> rfl

/-- processQueue is the identity once the in-flight counter has reached
maxConcurrent. -/
theorem processQueue_saturated (s : WState)
    (h : (s.maxConcurrent : Int) ≤ s.currentPreloads) :
    processQueue s = s := by
  unfold processQueue
  exact if_pos h

/-!
Claim C1.
-/

/-- The request of the C1 counterexample: a non-image request under the
path /images/, classified cacheFirst, stored in the DYNAMIC partition,
trimmed (if trim ran) at the DYNAMIC ceiling of 50. -/
def c1req : ReqInfo := ⟨"/images/new.png", "other", "no-cors"⟩

/-- A DYNAMIC partition already filled to its ceiling of 50 entries. -/
def c1store : List StoredEntry :=
  (List.range 50).map
    (fun i => ⟨⟨"/images/k" ++ toString i, "other", "no-cors"⟩, i⟩)

/-- C1 counterexample: the cacheFirst strategy writes without any trim
call, so one cacheFirst write on a partition at its ceiling leaves 51
entries, exceeding the configured ceiling of 50 that trimCache would
have selected for this request. -/
theorem c1_ceiling_counterexample :
    getStrategyForRequest c1req = "cacheFirst" ∧
    getCacheForRequest c1req = CACHES.DYNAMIC ∧
    trimLimitFor c1req = CACHE_LIMITS.DYNAMIC ∧
    c1store.length ≤ trimLimitFor c1req ∧
    (cacheFirstWrite c1store c1req 1000).length = 51 ∧
    ¬ (cacheFirstWrite c1store c1req 1000).length ≤ trimLimitFor c1req := by
  decide

/-- C1 amended: only the networkFirst strategy follows its cache write
with trimCache; after such a write-then-trim cycle the partition holds
at most the ceiling trimCache selects for the request, and the trim
removed entries only from the old end (the result is a suffix of the
freshly written list). -/
theorem c1_networkFirst_trim_ceiling (store : List StoredEntry)
    (req : ReqInfo) (now : Nat) :
    (networkFirstWrite store req now).length ≤ trimLimitFor req ∧
    networkFirstWrite store req now <:+ cachePut store req now := by
  by_cases h : (cachePut store req now).length > trimLimitFor req
  · constructor
    · simp only [networkFirstWrite, trimCache, if_pos h, List.length_drop]
      omega
    · simp only [networkFirstWrite, trimCache, if_pos h]
      exact List.drop_suffix _ _
  · constructor
    · simp only [networkFirstWrite, trimCache, if_neg h]
      omega
    · simp only [networkFirstWrite, trimCache, if_neg h]
      exact List.suffix_refl _

/-!
Claim C9.
-/

/-- C9 counterexample: a SET_NETWORK message reporting a 4g connection
with data saving enabled yields a concurrency ceiling of 3, where the
claim demands 1 whenever data-saving mode is enabled. -/
theorem c9_datasaver_counterexample :
    (setNetworkInfo initialWState ⟨some "4g", true⟩).maxConcurrent = 3 ∧
    (setNetworkInfo initialWState ⟨some "4g", true⟩).maxConcurrent ≠ 1 := by
  decide

/-- C9 amended: the derived ceiling depends on info.type alone: the
saveData flag is ignored entirely, the ceiling is 1 for 2g and slow-2g,
2 for 3g, and 3 for every other type, including wifi, 4g and a missing
type. -/
theorem c9_ceiling_amended (s : WState) (t : Option String)
    (b b1 b2 : Bool) :
    setNetworkInfo s ⟨t, b1⟩ = setNetworkInfo s ⟨t, b2⟩ ∧
    (setNetworkInfo s ⟨some "2g", b⟩).maxConcurrent = 1 ∧
    (setNetworkInfo s ⟨some "slow-2g", b⟩).maxConcurrent = 1 ∧
    (setNetworkInfo s ⟨some "3g", b⟩).maxConcurrent = 2 ∧
    (setNetworkInfo s ⟨some "4g", b⟩).maxConcurrent = 3 ∧
    (setNetworkInfo s ⟨some "wifi", b⟩).maxConcurrent = 3 ∧
    (setNetworkInfo s ⟨none, b⟩).maxConcurrent = 3 :=
  ⟨rfl, rfl, rfl, rfl, rfl, rfl, rfl⟩

/-!
Claim C10.
-/

/-- C10: clearCache empties the preload queue, the preloading and
preloaded maps and the media cache, and leaves every other part of the
worker state untouched: the in-flight counter, the concurrency ceiling,
the network type, the quality, the cache-size fields, the suspended
fetches with their cancellation flags (so no token is signalled), the
scheduled retries and the posted notices. -/
theorem c10_clearCache_frame (s : WState) :
    (clearCache s).preloadQueue = [] ∧
    (clearCache s).preloading = [] ∧
    (clearCache s).preloaded = [] ∧
    (clearCache s).mediaCache = [] ∧
    (clearCache s).currentPreloads = s.currentPreloads ∧
    (clearCache s).maxConcurrent = s.maxConcurrent ∧
    (clearCache s).networkType = s.networkType ∧
    (clearCache s).quality = s.quality ∧
    (clearCache s).cacheSize = s.cacheSize ∧
    (clearCache s).maxCacheSize = s.maxCacheSize ∧
    (clearCache s).pending = s.pending ∧
    (clearCache s).delayed = s.delayed ∧
    (clearCache s).notices = s.notices ∧
    (clearCache s).nextToken = s.nextToken :=
  ⟨rfl, rfl, rfl, rfl, rfl, rfl, rfl, rfl, rfl, rfl, rfl, rfl, rfl, rfl⟩

/-!
Claim C2.
-/

/-- C2 scenario: track a is enqueued and dispatched immediately. -/
def c2s1 : WState := (preloadTrack initialWState "a" "ua" "normal").1

/-- C2 scenario: track b is enqueued and dispatched, saturating the
default concurrency ceiling of 2. -/
def c2s2 : WState := (preloadTrack c2s1 "b" "ub" "normal").1

/-- C2 scenario: track c is enqueued; both slots are busy, so it stays
queued and the preloading map does not contain it. -/
def c2s3 : WState := (preloadTrack c2s2 "c" "uc" "normal").1

/-- C2 counterexample: a second PRELOAD_TRACK for the queued id c is
accepted again: it answers queued rather than an already-queued result,
and afterwards the queue holds two non-terminal items with id c, because
preloadTrack consults only the preloaded and preloading maps and never
the queue itself. -/
theorem c2_dedup_counterexample :
    (preloadTrack c2s3 "c" "uc" "normal").2 = PTResult.queued ∧
    ((preloadTrack c2s3 "c" "uc" "normal").1.preloadQueue.filter
      (fun it => it.id == "c")).length = 2 ∧
    c2s3.preloadQueue.map QItem.id = ["c"] ∧
    c2s3.preloading.map Prod.fst = ["a", "b"] := by
  decide

/-- C2 amended: the deduplication does fire for an id that is in the
preloaded map or in-flight in the preloading map: such a call leaves the
whole state unchanged and answers fromCache or inProgress.  Only ids
that sit in the queue without having been dispatched escape it. -/
theorem c2_dedup_amended (s : WState) (id url p : String)
    (h : s.preloaded.contains id = true ∨
         s.preloading.any (fun e => e.1 == id) = true) :
    (preloadTrack s id url p).1 = s ∧
    ((preloadTrack s id url p).2 = PTResult.fromCache ∨
     (preloadTrack s id url p).2 = PTResult.inProgress) := by
  by_cases hc : s.preloaded.contains id = true
  · unfold preloadTrack
    rw [if_pos hc]
    exact ⟨rfl, Or.inl rfl⟩
  · have hp : s.preloading.any (fun e => e.1 == id) = true := by
      rcases h with h | h
      · exact absurd h hc
      · exact h
    unfold preloadTrack
    rw [if_neg hc, if_pos hp]
    exact ⟨rfl, Or.inr rfl⟩

/-- A worker state with the id a in flight, for the C2 witness. -/
def c2wit : WState := { initialWState with preloading := [("a", 0)] }

/-- Witness for c2_dedup_amended at the state c2wit and the id a. -/
theorem c2_dedup_amended_witness :
    (c2wit.preloaded.contains "a" = true ∨
     c2wit.preloading.any (fun e => e.1 == "a") = true) ∧
    ((preloadTrack c2wit "a" "ua" "normal").1 = c2wit ∧
     ((preloadTrack c2wit "a" "ua" "normal").2 = PTResult.fromCache ∨
      (preloadTrack c2wit "a" "ua" "normal").2 = PTResult.inProgress)) :=
  ⟨Or.inr (by decide),
   c2_dedup_amended c2wit "a" "ua" "normal" (Or.inr (by decide))⟩

/-!
Claim C3.
-/

/-- C3 scenario: track a is enqueued and dispatched; the in-flight
counter is 1. -/
def c3s1 : WState := (preloadTrack initialWState "a" "ua" "normal").1

/-- C3 scenario: CANCEL_PRELOAD for a: cancelPreload aborts the
controller, removes a from the preloading map and decrements the counter
to 0. -/
def c3s2 : WState := cancelPreload c3s1 "a"

/-- C3 scenario: the aborted fetch settles; the finally branch of the
suspended processQueue call decrements the counter a second time. -/
def c3s3 : WState := completeFetch c3s2 0 .failure

/-- C3: evaluating the worker at the failing input.  After one dispatch,
one cancellation and the settling of the aborted fetch, the in-flight
counter has been decremented twice for a single dispatch — once by
cancelPreload and once by the finally branch — and stands at minus one,
with nothing in flight. -/
theorem c3_counter_goes_negative :
    c3s1.currentPreloads = 1 ∧
    c3s2.currentPreloads = 0 ∧
    c3s3.currentPreloads = -1 ∧
    c3s3.currentPreloads < 0 ∧
    c3s3.preloading = [] ∧ c3s3.pending = [] := by
  decide

/-!
Claim C4.
-/

/-- C4 scenario: track a is enqueued and dispatched. -/
def c4s0 : WState := (preloadTrack initialWState "a" "ua" "normal").1

/-- C4 scenario: the first fetch fails; attempts becomes 1 and a retry
is scheduled. -/
def c4s1 : WState := completeFetch c4s0 0 .failure

/-- C4 scenario: the retry timer fires and the item is re-dispatched. -/
def c4s2 : WState := fireDelayed c4s1

/-- C4 scenario: CANCEL_PRELOAD arrives while the retry is in flight,
aborting its controller. -/
def c4s3 : WState := cancelPreload c4s2 "a"

/-- C4 scenario: the aborted fetch settles; fetchAndCache returns null,
the try branch of processQueue throws reading result.size, and the catch
branch requeues the cancelled item with attempts incremented. -/
def c4s4 : WState := completeFetch c4s3 1 .failure

/-- C4 scenario: the requeued cancelled item is retried and fails. -/
def c4s5 : WState := fireDelayed c4s4

/-- C4 scenario: third recorded failure, attempts becomes 3, requeued
once more. -/
def c4s6 : WState := completeFetch c4s5 2 .failure

/-- C4 scenario: the item is retried one final time. -/
def c4s7 : WState := fireDelayed c4s6

/-- C4 scenario: the final retry fails with attempts exhausted. -/
def c4s8 : WState := completeFetch c4s7 3 .failure

/-- C4: evaluating the worker at the failing input.  The item cancelled
after one failed attempt is requeued because of the cancellation, with
attempts counted up from 1 to 2 and a backoff delay of 2000 ms — the
cancellation enters the retry accounting — and after the remaining
retries are exhausted a PRELOAD_FAILED notice is posted for it. -/
theorem c4_cancel_requeues_and_fails :
    c4s4.delayed = [⟨⟨"a", "ua", "normal", 2⟩, 2000⟩] ∧
    c4s4.notices = [] ∧
    c4s8.notices = [WNotice.failed "a"] := by
  decide

/-!
Claim C5.
-/

/-- C5 scenario: track a is enqueued and dispatched. -/
def c5s0 : WState := (preloadTrack initialWState "a" "ua" "normal").1

/-- C5 scenario: first failure, attempts becomes 1. -/
def c5s1 : WState := completeFetch c5s0 0 .failure

/-- C5 scenario: retry dispatched. -/
def c5s2 : WState := fireDelayed c5s1

/-- C5 scenario: second failure, attempts becomes 2. -/
def c5s3 : WState := completeFetch c5s2 1 .failure

/-- C5 scenario: retry dispatched. -/
def c5s4 : WState := fireDelayed c5s3

/-- C5 scenario: third failure. -/
def c5s5 : WState := completeFetch c5s4 2 .failure

/-- C5 counterexample: after an item has failed three times, so that
attempts equals RETRY_ATTEMPTS, it has not transitioned to failed and no
failure notice has been posted: the third failure still requeued it,
with attempts 3 and a 3000 ms delay.  The failure notice comes only with
a fourth failure. -/
theorem c5_three_failures_counterexample :
    c5s5.notices = [] ∧
    c5s5.delayed = [⟨⟨"a", "ua", "normal", 3⟩, 3000⟩] ∧
    RETRY_ATTEMPTS = 3 ∧
    (completeFetch (fireDelayed c5s5) 3 .failure).notices =
      [WNotice.failed "a"] := by
  decide

/-- C5 amended: a non-aborted fetch failure with attempts below
RETRY_ATTEMPTS requeues the item with attempts incremented and a delay
of RETRY_DELAY times the incremented attempts, posting nothing; a
failure with attempts at or above RETRY_ATTEMPTS — which the item first
reaches on its fourth failure — posts exactly one failure notice and
schedules no retry. -/
theorem c5_retry_amended (s : WState) (tok : Nat) (p : Pending)
    (hfind : s.pending.find? (fun q => q.token == tok) = some p)
    (hab : p.aborted = false) :
    (p.item.attempts < RETRY_ATTEMPTS →
       (completeFetch s tok .failure).delayed =
         s.delayed ++ [⟨{ p.item with attempts := p.item.attempts + 1 },
           RETRY_DELAY * (p.item.attempts + 1)⟩] ∧
       (completeFetch s tok .failure).notices = s.notices) ∧
    (RETRY_ATTEMPTS ≤ p.item.attempts →
       (completeFetch s tok .failure).notices =
         s.notices ++ [WNotice.failed p.item.id] ∧
       (completeFetch s tok .failure).delayed = s.delayed) := by
  constructor
  · intro hlt
    unfold completeFetch
    rw [hfind]
    simp only [hab, Bool.false_eq_true, if_false, if_pos hlt,
      processQueue_delayed_eq, processQueue_notices_eq]
    exact ⟨trivial, trivial⟩
  · intro hge
    have hnlt : ¬ p.item.attempts < RETRY_ATTEMPTS := Nat.not_lt.mpr hge
    unfold completeFetch
    rw [hfind]
    simp only [hab, Bool.false_eq_true, if_false, if_neg hnlt,
      processQueue_delayed_eq, processQueue_notices_eq]
    exact ⟨trivial, trivial⟩

/-- The pending task of the C5 witness: token 7, item a with two failed
attempts already recorded, not aborted. -/
def c5witP : Pending := ⟨7, ⟨"a", "ua", "normal", 2⟩, false⟩

/-- A worker state holding exactly the C5 witness task in flight. -/
def c5wit : WState :=
  { initialWState with pending := [c5witP], currentPreloads := 1 }

/-- Witness for c5_retry_amended at the state c5wit. -/
theorem c5_retry_amended_witness :
    (c5wit.pending.find? (fun q => q.token == 7) = some c5witP ∧
     c5witP.aborted = false) ∧
    ((c5witP.item.attempts < RETRY_ATTEMPTS →
        (completeFetch c5wit 7 .failure).delayed =
          c5wit.delayed ++ [⟨{ c5witP.item with
            attempts := c5witP.item.attempts + 1 },
            RETRY_DELAY * (c5witP.item.attempts + 1)⟩] ∧
        (completeFetch c5wit 7 .failure).notices = c5wit.notices) ∧
     (RETRY_ATTEMPTS ≤ c5witP.item.attempts →
        (completeFetch c5wit 7 .failure).notices =
          c5wit.notices ++ [WNotice.failed c5witP.item.id] ∧
        (completeFetch c5wit 7 .failure).delayed = c5wit.delayed)) :=
  ⟨⟨by decide, rfl⟩, c5_retry_amended c5wit 7 c5witP (by decide) rfl⟩

/-!
Claim C6.
-/

/-- C6 counterexample: an image request whose path contains none of the
four declared prefixes is classified staleWhileRevalidate, not
cacheFirst: every pathname contains the character slash, so the final
table entry matches first and the kind-based defaults are never
reached. -/
theorem c6_image_default_counterexample :
    jsIncludes "/foo.png" "/api/" = false ∧
    jsIncludes "/foo.png" "/stream/" = false ∧
    jsIncludes "/foo.png" "/images/" = false ∧
    jsIncludes "/foo.png" "/static/" = false ∧
    getStrategyForRequest ⟨"/foo.png", "image", "no-cors"⟩ =
      "staleWhileRevalidate" ∧
    getStrategyForRequest ⟨"/foo.png", "image", "no-cors"⟩ ≠
      "cacheFirst" := by
  decide

/-- C6 amended: the classifier returns the strategy of the first table
entry whose pattern occurs as a substring of the path.  Since the table
ends with the pattern slash, any path containing a slash matches the
table, so the kind-based defaults are dead for such paths: a request
whose path avoids the four specific patterns is classified
staleWhileRevalidate whatever its destination declares. -/
theorem c6_classifier_amended (req : ReqInfo)
    (hslash : jsIncludes req.pathname "/" = true)
    (h1 : jsIncludes req.pathname "/api/" = false)
    (h2 : jsIncludes req.pathname "/stream/" = false)
    (h3 : jsIncludes req.pathname "/images/" = false)
    (h4 : jsIncludes req.pathname "/static/" = false) :
    getStrategyForRequest req = "staleWhileRevalidate" := by
  unfold getStrategyForRequest CACHE_STRATEGIES
  simp only [List.find?, h1, h2, h3, h4, hslash]

/-- Witness for c6_classifier_amended at the image request of the
counterexample. -/
theorem c6_classifier_amended_witness :
    (jsIncludes "/foo.png" "/" = true ∧
     jsIncludes "/foo.png" "/api/" = false ∧
     jsIncludes "/foo.png" "/stream/" = false ∧
     jsIncludes "/foo.png" "/images/" = false ∧
     jsIncludes "/foo.png" "/static/" = false) ∧
    getStrategyForRequest ⟨"/foo.png", "image", "no-cors"⟩ =
      "staleWhileRevalidate" :=
  ⟨⟨by decide, by decide, by decide, by decide, by decide⟩,
   c6_classifier_amended ⟨"/foo.png", "image", "no-cors"⟩ (by decide)
     (by decide) (by decide) (by decide) (by decide)⟩

/-!
Claim C7.
-/

/-- The request of the C7 scenario: an image under /images/. -/
def c7req : ReqInfo := ⟨"/images/pic.png", "image", "no-cors"⟩

/-- The stored entry of the C7 scenario, written at time 0. -/
def c7entry : StoredEntry := ⟨c7req, 0⟩

/-- The lookup time of the C7 scenario: one hundred days in
milliseconds, far beyond the 30-day IMAGES time-to-live. -/
def c7now : Nat := 100 * 24 * 60 * 60 * 1000

/-- C7 counterexample: a cacheFirst lookup of an entry whose age exceeds
the partition TTL of CACHE_EXPIRATION still returns the stored entry,
while the same lookup with no entry stored goes to the network — so an
expired entry is not treated as absent.  The TTL table is never
consulted by any read path. -/
theorem c7_ttl_counterexample :
    CACHE_EXPIRATION.IMAGES * 1000 < c7now - c7entry.storedAt ∧
    cacheFirstRespond [c7entry] c7req true = SWResponse.fromCache c7entry ∧
    cacheFirstRespond [] c7req true = SWResponse.fromNetwork ∧
    cacheFirstRespond [c7entry] c7req true ≠
      cacheFirstRespond [] c7req true := by
  decide

/-- C7 amended: the lookup ignores age entirely: whenever caches.match
finds an entry for the URL, cacheFirst returns that entry, whatever its
storedAt and whatever the current time — there is no lazy expiration. -/
theorem c7_lookup_ignores_age (store : List StoredEntry) (req : ReqInfo)
    (networkOk : Bool) (e : StoredEntry)
    (h : cacheMatch store req = some e) :
    cacheFirstRespond store req networkOk = SWResponse.fromCache e := by
  unfold cacheFirstRespond
  rw [h]

/-- Witness for c7_lookup_ignores_age at the expired entry of the C7
scenario. -/
theorem c7_lookup_ignores_age_witness :
    cacheMatch [c7entry] c7req = some c7entry ∧
    cacheFirstRespond [c7entry] c7req true = SWResponse.fromCache c7entry :=
  ⟨by decide, c7_lookup_ignores_age [c7entry] c7req true c7entry (by decide)⟩

/-!
Claim C8.
-/

/-- C8 scenario: track a is enqueued and dispatched. -/
def c8s0 : WState := (preloadTrack initialWState "a" "ua" "normal").1

/-- C8 scenario: track b is enqueued and dispatched, saturating the
ceiling of 2. -/
def c8s1 : WState := (preloadTrack c8s0 "b" "ub" "normal").1

/-- C8 scenario: high-priority track h1 is enqueued; it stays queued. -/
def c8s2 : WState := (preloadTrack c8s1 "h1" "u1" "high").1

/-- C8 scenario: high-priority track h2 is enqueued after h1. -/
def c8s3 : WState := (preloadTrack c8s2 "h2" "u2" "high").1

/-- C8 scenario: track a completes, freeing a slot; the dispatch loop
pops the queue head. -/
def c8s4 : WState := completeFetch c8s3 0 (.success 100)

/-- C8 counterexample: two high-priority items enqueued in sequence are
dispatched in the reverse order: unshift puts h2 in front of the earlier
h1, so when a slot frees, h2 enters the preloading map while h1 is still
queued — same-priority FIFO does not hold for high priority. -/
theorem c8_fifo_counterexample :
    c8s3.preloadQueue.map QItem.id = ["h2", "h1"] ∧
    c8s4.preloadQueue.map QItem.id = ["h1"] ∧
    c8s4.preloading.map Prod.fst = ["b", "h2"] := by
  decide

/-- C8 amended: on a saturated queue a new high-priority item is
unshifted to the very front of the queue, ahead of every earlier item
including earlier high-priority ones (so high runs before earlier
medium and low, but later-in-first-out among high), and an item of any
other priority is pushed to the back in FIFO position. -/
theorem c8_priority_insert_amended (s : WState) (id url p : String)
    (h1 : s.preloaded.contains id = false)
    (h2 : s.preloading.any (fun e => e.1 == id) = false)
    (h3 : (s.maxConcurrent : Int) ≤ s.currentPreloads) :
    (p = "high" →
       (preloadTrack s id url p).1.preloadQueue =
         ⟨id, url, p, 0⟩ :: s.preloadQueue) ∧
    (p ≠ "high" →
       (preloadTrack s id url p).1.preloadQueue =
         s.preloadQueue ++ [⟨id, url, p, 0⟩]) := by
  have hc : ¬ s.preloaded.contains id = true := by
    rw [h1]; exact Bool.false_ne_true
  have hp : ¬ s.preloading.any (fun e => e.1 == id) = true := by
    rw [h2]; exact Bool.false_ne_true
  constructor
  · intro hh
    unfold preloadTrack
    rw [if_neg hc, if_neg hp]
    simp only [if_pos hh]
    exact congrArg WState.preloadQueue
      (processQueue_saturated
        { s with preloadQueue := ⟨id, url, p, 0⟩ :: s.preloadQueue } h3)
  · intro hh
    unfold preloadTrack
    rw [if_neg hc, if_neg hp]
    simp only [if_neg hh]
    exact congrArg WState.preloadQueue
      (processQueue_saturated
        { s with preloadQueue := s.preloadQueue ++ [⟨id, url, p, 0⟩] } h3)

/-- A saturated worker state for the C8 witness: both slots busy. -/
def c8wit : WState := { initialWState with currentPreloads := 2 }

/-- Witness for c8_priority_insert_amended at the state c8wit. -/
theorem c8_priority_insert_amended_witness :
    (c8wit.preloaded.contains "h" = false ∧
     c8wit.preloading.any (fun e => e.1 == "h") = false ∧
     (c8wit.maxConcurrent : Int) ≤ c8wit.currentPreloads) ∧
    ((("low" : String) = "high" →
        (preloadTrack c8wit "h" "u" "low").1.preloadQueue =
          ⟨"h", "u", "low", 0⟩ :: c8wit.preloadQueue) ∧
     (("low" : String) ≠ "high" →
        (preloadTrack c8wit "h" "u" "low").1.preloadQueue =
          c8wit.preloadQueue ++ [⟨"h", "u", "low", 0⟩])) :=
  ⟨⟨by decide, by decide, by decide⟩,
   c8_priority_insert_amended c8wit "h" "u" "low" (by decide) (by decide)
     (by decide)⟩
